import Mathlib

/-!
# ChatWidget: the conversation controller of `src/components/ChatWidget.jsx`

A shallow embedding of the chat widget's state (`messages`, `input`, `loading`),
of `sendMessage` (the part that runs up to `await fetch` and the part that runs
once the call has settled), and of the JavaScript operations the widget applies
to a decoded response body (`?.`, `||`, `String`, `trim`).

JavaScript strings are embedded as Lean strings.
-/

namespace ChatWidget

/-! ## Decoded JSON values and the JavaScript operations used on them -/

/-- A decoded JSON number. The widget observes a number in two ways only: through
`||` (is it zero?) and through `String(...)` (its decimal text), so a number is
kept as exactly these two observations. -/
structure JsNumber where
  isZero : Bool
  text : String

/-- What `JSON.parse` (`res.json()`) can return. The members of an object are
listed in the order of the JSON text. -/
inductive Json where
  | null : Json
  | bool (b : Bool) : Json
  | num (n : JsNumber) : Json
  | str (s : String) : Json
  | arr (items : List Json) : Json
  | obj (members : List (String × Json)) : Json

/-- A JavaScript value met while probing the body: `none` is `undefined`. -/
abbrev JsVal := Option Json

/-- Own property of a decoded object; when the JSON text repeats a key the
last member wins, as in `JSON.parse`. -/
def lookupMember (k : String) : List (String × Json) → JsVal
  | [] => none
  | (k', v) :: rest =>
    match lookupMember k rest with
    | some w => some w
    | none => if k' = k then some v else none

/-- Optional access `v?.k` for a key `k` that no built-in prototype defines
(`content`, `message`, `reply`, `choices`): `undefined` and `null` short-circuit
to `undefined`, an object yields its own property, every other value has no
such property. -/
def getField (v : JsVal) (k : String) : JsVal :=
  match v with
  | some (Json.obj members) => lookupMember k members
  | _ => none

/-- Optional access `v?.[0]`: the first element of an array, the own property `"0"`
of an object, the first character of a non-empty string (as a string; the widget
only ever reads a property of it, which a string does not have), `undefined`
otherwise. -/
def getIndex0 (v : JsVal) : JsVal :=
  match v with
  | some (Json.arr items) => items.head?
  | some (Json.str s) =>
    match s.data with
    | [] => none
    | c :: _ => some (Json.str (String.singleton c))
  | some (Json.obj members) => lookupMember "0" members
  | _ => none

/-- ToBoolean: `undefined`, `null`, `false`, `0` and `""` are falsy, everything
else (arrays and objects included) is truthy. -/
def truthy : JsVal → Bool
  | none => false
  | some Json.null => false
  | some (Json.bool b) => b
  | some (Json.num n) => !n.isZero
  | some (Json.str s) => decide (s ≠ "")
  | some (Json.arr _) => true
  | some (Json.obj _) => true

/-- The operator `a || b`: `a` when it is truthy, `b` otherwise. -/
def jsOr (a b : JsVal) : JsVal :=
  if truthy a then a else b

/-- Whether an object has an own member with this key. -/
def hasMember (k : String) (members : List (String × Json)) : Bool :=
  members.any (fun kv => kv.1 = k)

/-- Whether a decoded value is `null`. -/
def Json.isNull : Json → Bool
  | Json.null => true
  | _ => false

mutual
/-- ToString of a decoded value, the conversion behind `String(reply)`. An array
is joined with commas. An object without an own `toString` member is
`[object Object]`; with one (never callable in decoded JSON) the conversion
throws a TypeError, rendered here as `none`. -/
def jsToString : Json → Option String
  | Json.null => some "null"
  | Json.bool b => some (if b then "true" else "false")
  | Json.num n => some n.text
  | Json.str s => some s
  | Json.arr items => jsJoin items
  | Json.obj members => if hasMember "toString" members then none else some "[object Object]"
/-- `Array.prototype.join` with the default separator `,`: a `null` element
contributes the empty string, every other element its ToString. -/
def jsJoin : List Json → Option String
  | [] => some ""
  | [x] => if x.isNull then some "" else jsToString x
  | x :: y :: rest =>
    match (if x.isNull then some "" else jsToString x), jsJoin (y :: rest) with
    | some a, some b => some (a ++ "," ++ b)
    | _, _ => none
end

/-- `String(v)` of a JavaScript value. -/
def jsString : JsVal → Option String
  | none => some "undefined"
  | some j => jsToString j

/-- The code points that `String.prototype.trim` strips: the WhiteSpace and
LineTerminator productions of ECMAScript. -/
def isJsWhiteSpace (c : Char) : Bool :=
  c.toNat = 0x09 || c.toNat = 0x0A || c.toNat = 0x0B || c.toNat = 0x0C || c.toNat = 0x0D ||
  c.toNat = 0x20 || c.toNat = 0xA0 || c.toNat = 0x1680 ||
  (0x2000 ≤ c.toNat && c.toNat ≤ 0x200A) ||
  c.toNat = 0x2028 || c.toNat = 0x2029 || c.toNat = 0x202F || c.toNat = 0x205F ||
  c.toNat = 0x3000 || c.toNat = 0xFEFF

/-- The method `s.trim()`: leading and trailing white space removed. -/
def trim (s : String) : String :=
  ⟨((s.data.dropWhile isJsWhiteSpace).reverse.dropWhile isJsWhiteSpace).reverse⟩

/-! ## The widget state -/

/-- One transcript entry `{ role, content }`. -/
structure Message where
  role : String
  content : String
  deriving DecidableEq, Repr

/-- The three `useState` cells of the component. -/
structure ChatState where
  messages : List Message
  input : String
  loading : Bool
  deriving DecidableEq, Repr

/-- The message that seeds `messages` (line 12). -/
def GREETING : Message :=
  { role := "assistant", content := "Hi! I’m Bhargavi’s assistant. How can I help?" }

/-- The leading entry of every request body (line 37). -/
def SYSTEM_MESSAGE : Message :=
  { role := "system", content := "You are Bhargavi\x27s helpful assistant." }

/-- The last operand of the `||` chain (line 53). -/
def NO_ANSWER : String := "Sorry, I couldn’t answer that."

/-- The content appended by the `catch` clause (line 62). -/
def CONTACT_FALLBACK : String :=
  "I couldn’t reach the chat service right now. Please email Bhargavi at bhargaviarya11@gmail.com."

/-- `useState(init)`: the initial value is used on the first render of a mounted
component only; every later render reads the stored cell. -/
def useState {α : Type} (cell : Option α) (init : α) : α :=
  match cell with
  | some v => v
  | none => init

/-- What a render of the open widget shows. -/
structure View where
  messages : List Message
  thinking : Bool
  draft : String
  sendEnabled : Bool
  deriving DecidableEq, Repr

/-- `canSend` (line 22): the truthiness of `input.trim() && !loading`. -/
def canSend (s : ChatState) : Bool :=
  decide (trim s.input ≠ "") && !s.loading

/-- One render of the function component `ChatWidget({ open, onClose })` on the
cells of its instance (`none` before the first render): the cells after the
render, and the view, which is `null` when `open` is false (line 77). -/
def render (opened : Bool) (cells : Option ChatState) : ChatState × Option View :=
  let messages := useState (cells.map (fun c => c.messages)) [GREETING]
  let input := useState (cells.map (fun c => c.input)) ""
  let loading := useState (cells.map (fun c => c.loading)) false
  let st : ChatState := { messages := messages, input := input, loading := loading }
  if !opened then (st, none)
  else (st, some { messages := messages, thinking := loading, draft := input,
                   sendEnabled := canSend st })

/-- The call `fetch(CHAT_API, ...)` of lines 32 to 42: method, content type and
the `messages` array of the body. The endpoint URL is configuration and is
left out. -/
structure Request where
  method : String
  contentType : String
  messages : List Message
  deriving DecidableEq, Repr

/-- The part of `sendMessage` that runs before `await fetch` resolves (lines 25
to 42): the state after the three setters, and the request issued, if any. The
request body reads the `messages` of the render, that is, of `s`. -/
def sendMessage (s : ChatState) : ChatState × Option Request :=
  if !canSend s then (s, none)
  else
    let text := trim s.input
    ({ messages := s.messages ++ [{ role := "user", content := text }],
       input := "",
       loading := true },
     some { method := "POST",
            contentType := "application/json",
            messages := [SYSTEM_MESSAGE]
              ++ s.messages.map (fun m => { role := m.role, content := m.content })
              ++ [{ role := "user", content := text }] })

/-- How the awaited transport call ends: the `fetch` promise rejects, or it
yields a response with a status and a body that `res.json()` decodes (`none`
when decoding rejects). -/
inductive FetchOutcome where
  | rejected : FetchOutcome
  | response (status : Nat) (body : Option Json) : FetchOutcome

/-- The getter `res.ok`: the status is in the range 200 to 299. -/
def resOk (status : Nat) : Bool :=
  decide (200 ≤ status) && decide (status ≤ 299)

/-- What can be thrown inside the `try` block. -/
inductive JsError where
  | networkError : JsError
  | httpError (status : Nat) : JsError
  | decodeError : JsError
  | typeError : JsError
  deriving DecidableEq, Repr

/-- The `reply` of lines 48 to 53: the chain of `||` over the four probes, ending
in the fixed string. -/
def extractReply (data : Json) : JsVal :=
  jsOr (jsOr (jsOr (jsOr
    (getField (some data) "content")
    (getField (getField (some data) "message") "content"))
    (getField (some data) "reply"))
    (getField (getField (getIndex0 (getField (some data) "choices")) "message") "content"))
    (some (Json.str NO_ANSWER))

/-- A call of a state setter, as React queues it for the next render. The
functional form `setMessages((m) => ...)` hands React an updater; React runs
it, on the `messages` current at that moment, and the updater can throw. (When
React also runs the updater early, inside the setter call, it discards what the
updater throws there and runs it again in the render.) -/
inductive SetState where
  | messages (updater : List Message → Except JsError (List Message)) : SetState
  | loading (value : Bool) : SetState

/-- The body of the `try` block after the call has ended (lines 44 to 55), on
the setter calls made so far: the statements that can throw inside the `try`,
then the call `setMessages((m) => ...)` of line 55. `reply` is computed inside
the `try`; `String(reply)` stands in the body of the updater, so it is
evaluated when React runs the updater, not by the `try` block. -/
def tryBlock (r : FetchOutcome) (calls : List SetState) : Except JsError (List SetState) :=
  match r with
  | FetchOutcome.rejected => Except.error JsError.networkError
  | FetchOutcome.response status body =>
    if !resOk status then Except.error (JsError.httpError status)
    else
      match body with
      | none => Except.error JsError.decodeError
      | some data =>
        Except.ok (calls ++ [SetState.messages (fun m =>
          match jsString (extractReply data) with
          | none => Except.error JsError.typeError
          | some text => Except.ok (m ++ [{ role := "assistant", content := text }]))])

/-- The `catch (_)` clause (lines 56 to 64): one call of `setMessages`, whose
updater appends the fixed contact message. -/
def catchBlock (_e : JsError) (calls : List SetState) : Except JsError (List SetState) :=
  Except.ok (calls ++ [SetState.messages (fun m =>
    Except.ok (m ++ [{ role := "assistant", content := CONTACT_FALLBACK }]))])

/-- The `finally` clause (line 66): `setLoading(false)`. -/
def finallyBlock (calls : List SetState) : Except JsError (List SetState) :=
  Except.ok (calls ++ [SetState.loading false])

/-- The statement `try { body } catch (e) { handler } finally { fin }` on a
state: an error of the body goes to the handler, `fin` runs on every path, and
an error of the handler or of `fin` propagates. No statement of the body
changes the state before it throws. -/
def tryCatchFinally {σ ε : Type} (body : σ → Except ε σ) (handler : ε → σ → Except ε σ)
    (fin : σ → Except ε σ) (s : σ) : Except ε σ :=
  match body s with
  | Except.ok s1 => fin s1
  | Except.error e =>
    match handler e s with
    | Except.ok s2 => fin s2
    | Except.error e2 =>
      match fin s with
      | Except.ok _ => Except.error e2
      | Except.error e3 => Except.error e3

/-- The setter calls made by the part of `sendMessage` that runs once the
awaited call has ended (lines 44 to 67), in order. An `error` result would be a
rejection of the promise that `sendMessage` returns. -/
def settleCalls (r : FetchOutcome) : Except JsError (List SetState) :=
  tryCatchFinally (tryBlock r) catchBlock finallyBlock []

/-- The render that follows: React runs the queued setter calls in order on the
current cells and commits the result. An updater that throws makes the render
throw, and nothing is committed. -/
def applyCalls : List SetState → ChatState → Except JsError ChatState
  | [], s => Except.ok s
  | SetState.messages updater :: rest, s =>
    match updater s.messages with
    | Except.ok ms => applyCalls rest { s with messages := ms }
    | Except.error e => Except.error e
  | SetState.loading value :: rest, s => applyCalls rest { s with loading := value }

/-- The part of `sendMessage` that runs once the awaited call has ended (lines
44 to 67) and the render of its setter calls, on the state current at that
moment. An `error` result is an error that nothing catches: a rejection of the
promise of `sendMessage`, or a render that throws, on which React, with no
error boundary around the component, unmounts the whole root. -/
def sendMessageSettle (r : FetchOutcome) (s : ChatState) : Except JsError ChatState :=
  match settleCalls r with
  | Except.ok calls => applyCalls calls s
  | Except.error e => Except.error e

/-- The state last committed after `sendMessageSettle`: an uncaught error leaves
the state as it was. -/
def settle (r : FetchOutcome) (s : ChatState) : ChatState :=
  match sendMessageSettle r s with
  | Except.ok s1 => s1
  | Except.error _ => s

/-! ## The mounted widget and its events -/

/-- A widget: the cells of the component as last committed, the `open` prop of
its last render, the number of requests issued and not yet settled, and whether
React has unmounted the root after a render that threw. -/
structure Widget where
  cells : ChatState
  opened : Bool
  inflight : Nat
  unmounted : Bool
  deriving DecidableEq, Repr

/-- The first render of a freshly mounted component. -/
def mount (opened : Bool) : Widget :=
  { cells := (render opened none).1, opened := opened, inflight := 0, unmounted := false }

/-- What can happen to a mounted widget: the textarea changes (`onChange`), a
submission (the Send button or Enter), the outstanding call ends, the parent
renders the component with a new `open` prop. -/
inductive Event where
  | setInput (value : String) : Event
  | submit : Event
  | settled (r : FetchOutcome) : Event
  | setOpen (opened : Bool) : Event

/-- One event. Nothing happens to an unmounted widget. The textarea and the
button exist only while the widget is open; a call can only end when one is
outstanding, and when the render of its setter calls throws the root is
unmounted with the cells as last committed. The handler that runs is the one of
the latest render, so it reads the current cells. -/
def step (w : Widget) (e : Event) : Widget :=
  if w.unmounted then w
  else
    match e with
    | Event.setInput value =>
      if w.opened then { w with cells := { w.cells with input := value } } else w
    | Event.submit =>
      if w.opened then
        { w with cells := (sendMessage w.cells).1,
                 inflight := w.inflight + (if (sendMessage w.cells).2.isSome then 1 else 0) }
      else w
    | Event.settled r =>
      if w.inflight = 0 then w
      else
        match sendMessageSettle r w.cells with
        | Except.ok cells => { w with cells := cells, inflight := w.inflight - 1 }
        | Except.error _ => { w with inflight := w.inflight - 1, unmounted := true }
    | Event.setOpen opened =>
      { w with cells := (render opened (some w.cells)).1, opened := opened }

/-- A sequence of events, in order. -/
def run (w : Widget) (events : List Event) : Widget :=
  events.foldl step w

/-! ## The claims in the words of the specification -/

/-- The four reply fields of the extraction policy, in priority order: `content`,
`message.content`, `reply`, `choices[0].message.content`. -/
def replyFields (data : Json) : List JsVal :=
  [ getField (some data) "content",
    getField (getField (some data) "message") "content",
    getField (some data) "reply",
    getField (getField (getIndex0 (getField (some data) "choices")) "message") "content" ]

/-- A field that is "present and non-empty": it holds a value (not `undefined`,
not `null`) that is not the empty string. -/
def presentNonEmpty : JsVal → Bool
  | none => false
  | some Json.null => false
  | some (Json.str s) => decide (s ≠ "")
  | some _ => true

/-- The reply the extraction policy names: the first of the four fields that is
present and non-empty. -/
def specReply (data : Json) : Option JsVal :=
  (replyFields data).find? presentNonEmpty

/-- A transport call that "fails in any way": network rejection, non-success
HTTP status, or a body that fails to decode as JSON. -/
def transportFailed : FetchOutcome → Bool
  | FetchOutcome.rejected => true
  | FetchOutcome.response status body => !resOk status || body.isNone

/-- A success response whose `reply` makes `String(reply)` throw: the updater of
line 55 throws when React runs it. -/
def replyThrows : FetchOutcome → Bool
  | FetchOutcome.response status (some data) =>
    resOk status && (jsString (extractReply data)).isNone
  | _ => false

/-- Whether the event is the end of a call. -/
def Event.isSettled : Event → Bool
  | Event.settled _ => true
  | _ => false

/-! ## The keyboard -/

/-- A `keydown` event as `handleKeyDown` reads it: `e.key` and `e.shiftKey`. -/
structure KeyEvent where
  key : String
  shiftKey : Bool
  deriving DecidableEq, Repr

/-- The calls `handleKeyDown` can make. -/
inductive Call where
  | preventDefault : Call
  | sendMessage : Call
  deriving DecidableEq, Repr

/-- `handleKeyDown` (lines 70 to 75): the calls it makes, in order. -/
def handleKeyDown (e : KeyEvent) : List Call :=
  if decide (e.key = "Enter") && !e.shiftKey then [Call.preventDefault, Call.sendMessage]
  else []

/-- The calls of a handler run on the cells: `e.preventDefault()` leaves them as
they are, each `sendMessage()` is one submission; the requests issued are
collected in order. -/
def runCalls (calls : List Call) (s : ChatState) : ChatState × List Request :=
  calls.foldl
    (fun acc c =>
      match c with
      | Call.preventDefault => acc
      | Call.sendMessage => ((sendMessage acc.1).1, acc.2 ++ (sendMessage acc.1).2.toList))
    (s, [])

/-- The default action of Enter in a textarea: the selection, from `selStart` to
`selEnd`, is replaced by a line feed. -/
def insertLineBreak (value : String) (selStart selEnd : Nat) : String :=
  ⟨value.data.take selStart ++ Char.ofNat 0x0A :: value.data.drop selEnd⟩

/-- One `keydown` on the textarea (`onKeyDown={handleKeyDown}`, line 125): the
handler runs; unless it called `preventDefault`, the default action follows,
which for Enter inserts a line break and stores the new value through
`onChange` (line 124). The default action of the other keys is the event
`Event.setInput`. -/
def keyDown (e : KeyEvent) (selStart selEnd : Nat) (s : ChatState) : ChatState × List Request :=
  if Call.preventDefault ∈ handleKeyDown e then runCalls (handleKeyDown e) s
  else if e.key = "Enter" then
    ({ (runCalls (handleKeyDown e) s).1 with
         input := insertLineBreak (runCalls (handleKeyDown e) s).1.input selStart selEnd },
     (runCalls (handleKeyDown e) s).2)
  else runCalls (handleKeyDown e) s

/-! ## Roles along the transcript -/

/-- The role at position `i` of a transcript that alternates assistant, user,
assistant, ... from position 0. -/
def expectedRole (i : Nat) : String :=
  if i % 2 = 0 then "assistant" else "user"

/-- What holds of every widget reached from a mount: the roles alternate from
the greeting on; either `loading` is true and the transcript has even length
(it ends with a user message), or `loading` is false and the transcript has odd
length; and as long as the root is mounted, one call is outstanding in the
first case and none in the second. -/
def Consistent (w : Widget) : Prop :=
  w.cells.messages.head? = some GREETING ∧
  w.cells.messages.map Message.role = (List.range w.cells.messages.length).map expectedRole ∧
  ((w.cells.loading = true ∧ w.cells.messages.length % 2 = 0 ∧
      (w.unmounted = false → w.inflight = 1)) ∨
   (w.cells.loading = false ∧ w.cells.messages.length % 2 = 1 ∧
      (w.unmounted = false → w.inflight = 0)))

/-! ## Reply extraction -/

/-- The chain of `||` returns the first truthy field, and the fixed string when
there is none. -/
theorem extractReply_eq_find (data : Json) :
    extractReply data =
      match (replyFields data).find? truthy with
      | some v => v
      | none => some (Json.str NO_ANSWER) := by
  unfold extractReply replyFields jsOr
  simp only [List.find?]
  cases h1 : truthy (getField (some data) "content") <;>
  cases h2 : truthy (getField (getField (some data) "message") "content") <;>
  cases h3 : truthy (getField (some data) "reply") <;>
  cases h4 : truthy (getField (getField (getIndex0 (getField (some data) "choices"))
    "message") "content") <;>
  simp [h1, h2, h3, h4]

/-- A truthy field is present and non-empty; `0` and `false` are present and
non-empty without being truthy. -/
theorem presentNonEmpty_of_truthy (f : JsVal) (h : truthy f = true) :
    presentNonEmpty f = true := by
  cases f with
  | none => simp [truthy] at h
  | some j => cases j <;> simp_all [truthy, presentNonEmpty]

/-- The settle of a success response whose reply converts to a string. -/
theorem settle_success (status : Nat) (data : Json) (text : String) (s : ChatState)
    (hstatus : resOk status = true) (htext : jsString (extractReply data) = some text) :
    sendMessageSettle (FetchOutcome.response status (some data)) s =
      Except.ok { s with messages := s.messages ++ [{ role := "assistant", content := text }],
                         loading := false } := by
  simp [sendMessageSettle, settleCalls, tryCatchFinally, tryBlock, finallyBlock, applyCalls,
    hstatus, htext]

/-- C1 (as amended): for every decoded success body in which one of the four
fields `content`, `message.content`, `reply`, `choices[0].message.content` is
truthy, the reply is the value `v` of the first truthy one in this order;
whenever `String(v)` returns a string, the assistant message content is that
string, and when `v` is a string it always does and the content is `v`
itself. -/
theorem extractReply_first_truthy (data v : Json) (status : Nat) (s : ChatState)
    (hstatus : resOk status = true)
    (hfirst : (replyFields data).find? truthy = some (some v)) :
    extractReply data = some v ∧
    (∀ text, jsToString v = some text →
      sendMessageSettle (FetchOutcome.response status (some data)) s =
        Except.ok { s with messages := s.messages ++ [{ role := "assistant", content := text }],
                           loading := false }) ∧
    (∀ t, v = Json.str t →
      sendMessageSettle (FetchOutcome.response status (some data)) s =
        Except.ok { s with messages := s.messages ++ [{ role := "assistant", content := t }],
                           loading := false }) := by
  have hreply : extractReply data = some v := by
    rw [extractReply_eq_find, hfirst]
  have hconv : ∀ text, jsToString v = some text →
      sendMessageSettle (FetchOutcome.response status (some data)) s =
        Except.ok { s with messages := s.messages ++ [{ role := "assistant", content := text }],
                           loading := false } := by
    intro text htext
    apply settle_success _ _ _ _ hstatus
    rw [hreply]
    exact htext
  refine ⟨hreply, hconv, ?_⟩
  intro t ht
  subst ht
  exact hconv t (by simp [jsToString])

/-- C1, the examples of the claim: `content`, `message.content`, `reply`, `choices[0].message.content`
alone give "A", "B", "C", "D", and a body carrying all four gives the first. -/
theorem extractReply_first_truthy_witness :
    sendMessageSettle (FetchOutcome.response 200 (some (Json.obj [("content", Json.str "A")])))
        { messages := [GREETING, ⟨"user", "hi"⟩], input := "", loading := true }
      = Except.ok { messages := [GREETING, ⟨"user", "hi"⟩, ⟨"assistant", "A"⟩], input := "",
                    loading := false } ∧
    sendMessageSettle
        (FetchOutcome.response 200
          (some (Json.obj [("message", Json.obj [("content", Json.str "B")])])))
        { messages := [GREETING, ⟨"user", "hi"⟩], input := "", loading := true }
      = Except.ok { messages := [GREETING, ⟨"user", "hi"⟩, ⟨"assistant", "B"⟩], input := "",
                    loading := false } ∧
    sendMessageSettle (FetchOutcome.response 200 (some (Json.obj [("reply", Json.str "C")])))
        { messages := [GREETING, ⟨"user", "hi"⟩], input := "", loading := true }
      = Except.ok { messages := [GREETING, ⟨"user", "hi"⟩, ⟨"assistant", "C"⟩], input := "",
                    loading := false } ∧
    sendMessageSettle
        (FetchOutcome.response 200 (some (Json.obj [("choices",
          Json.arr [Json.obj [("message", Json.obj [("content", Json.str "D")])]])])))
        { messages := [GREETING, ⟨"user", "hi"⟩], input := "", loading := true }
      = Except.ok { messages := [GREETING, ⟨"user", "hi"⟩, ⟨"assistant", "D"⟩], input := "",
                    loading := false } ∧
    sendMessageSettle
        (FetchOutcome.response 200 (some (Json.obj [("choices",
          Json.arr [Json.obj [("message", Json.obj [("content", Json.str "D")])]]),
          ("reply", Json.str "C"), ("message", Json.obj [("content", Json.str "B")]),
          ("content", Json.str "A")])))
        { messages := [GREETING, ⟨"user", "hi"⟩], input := "", loading := true }
      = Except.ok { messages := [GREETING, ⟨"user", "hi"⟩, ⟨"assistant", "A"⟩], input := "",
                    loading := false } :=
  ⟨(extractReply_first_truthy _ (Json.str "A") 200 _ (by decide) (by rfl)).2.2 "A" rfl,
   (extractReply_first_truthy _ (Json.str "B") 200 _ (by decide) (by rfl)).2.2 "B" rfl,
   (extractReply_first_truthy _ (Json.str "C") 200 _ (by decide) (by rfl)).2.2 "C" rfl,
   (extractReply_first_truthy _ (Json.str "D") 200 _ (by decide) (by rfl)).2.2 "D" rfl,
   (extractReply_first_truthy _ (Json.str "A") 200 _ (by decide) (by rfl)).2.2 "A" rfl⟩

/-- C1 (as stated) fails on the body `{"content": 0, "reply": "C"}`: the first
field that is present and non-empty is `content`, with value `0`, whose text
is "0"; the message appended is "C", the value of `reply`. -/
theorem extractReply_skips_zero :
    specReply (Json.obj [("content", Json.num ⟨true, "0"⟩), ("reply", Json.str "C")])
      = some (some (Json.num ⟨true, "0"⟩)) ∧
    jsString (some (Json.num ⟨true, "0"⟩)) = some "0" ∧
    sendMessageSettle
        (FetchOutcome.response 200
          (some (Json.obj [("content", Json.num ⟨true, "0"⟩), ("reply", Json.str "C")])))
        { messages := [GREETING, ⟨"user", "hi"⟩], input := "", loading := true }
      = Except.ok { messages := [GREETING, ⟨"user", "hi"⟩, ⟨"assistant", "C"⟩], input := "",
                    loading := false } ∧
    ("C" : String) ≠ "0" := by
  refine ⟨by rfl, by rfl, by rfl, by decide⟩

/-- C2 (as amended): for every success response whose decoded body has none of
the four reply fields truthy (each is absent, `null`, `false`, `0` or the
empty string), the appended assistant message is the fixed string of line 53,
written with the apostrophe U+2019, and it is not the contact-email fallback of
the failure path. -/
theorem no_reply_field_gives_fixed_string (data : Json) (status : Nat) (s : ChatState)
    (hstatus : resOk status = true)
    (hnone : ∀ f ∈ replyFields data, truthy f = false) :
    sendMessageSettle (FetchOutcome.response status (some data)) s =
      Except.ok { s with messages := s.messages ++
                           [{ role := "assistant", content := "Sorry, I couldn’t answer that." }],
                         loading := false } ∧
    "Sorry, I couldn’t answer that." ≠ CONTACT_FALLBACK := by
  have hfind : (replyFields data).find? truthy = none := by
    rw [List.find?_eq_none]
    intro f hf
    simp [hnone f hf]
  refine ⟨?_, by decide⟩
  apply settle_success _ _ _ _ hstatus
  rw [extractReply_eq_find, hfind]
  rfl

/-- C2 on the empty object `{}`. -/
theorem no_reply_field_gives_fixed_string_witness :
    sendMessageSettle (FetchOutcome.response 200 (some (Json.obj [])))
        { messages := [GREETING, ⟨"user", "hi"⟩], input := "", loading := true }
      = Except.ok { messages := [GREETING, ⟨"user", "hi"⟩,
                      ⟨"assistant", "Sorry, I couldn’t answer that."⟩],
                    input := "", loading := false } :=
  (no_reply_field_gives_fixed_string (Json.obj []) 200
    { messages := [GREETING, ⟨"user", "hi"⟩], input := "", loading := true }
    (by decide) (by decide)).1

/-- C2 (as stated) fails on the body `{}`: the content appended is not the string
"Sorry, I couldn't answer that." of the claim, which has the ASCII apostrophe
U+0027 where line 53 has U+2019. -/
theorem fixed_string_not_ascii :
    (∀ f ∈ replyFields (Json.obj []), presentNonEmpty f = false) ∧
    sendMessageSettle (FetchOutcome.response 200 (some (Json.obj [])))
        { messages := [GREETING, ⟨"user", "hi"⟩], input := "", loading := true }
      = Except.ok { messages := [GREETING, ⟨"user", "hi"⟩, ⟨"assistant", NO_ANSWER⟩],
                    input := "", loading := false } ∧
    NO_ANSWER ≠ "Sorry, I couldn\x27t answer that." := by
  refine ⟨by decide, by rfl, by decide⟩

/-! ## `trim` -/

/-- The characters of `trim s`. -/
theorem trim_data (s : String) :
    (trim s).data = (s.data.dropWhile isJsWhiteSpace).rdropWhile isJsWhiteSpace := rfl

/-- A draft made of white space only trims to the empty string, and conversely. -/
theorem trim_eq_empty_iff (s : String) :
    trim s = "" ↔ ∀ c ∈ s.data, isJsWhiteSpace c = true := by
  constructor
  · intro h c hc
    have hd : (trim s).data = [] := by rw [h]
    rw [trim_data, List.rdropWhile_eq_nil_iff] at hd
    by_contra hws
    have hne : s.data.dropWhile isJsWhiteSpace ≠ [] := by
      intro hnil
      rw [List.dropWhile_eq_nil_iff] at hnil
      exact hws (hnil c hc)
    have hhead := List.head_dropWhile_not isJsWhiteSpace s.data hne
    have := hd _ (List.head_mem hne)
    simp [hhead] at this
  · intro h
    have hd : (trim s).data = [] := by
      rw [trim_data, (List.dropWhile_eq_nil_iff).2 h]
      rfl
    exact String.ext hd

/-- The result of `trim s` sits inside `s` between two runs of white space, and
neither starts nor ends with white space. -/
theorem trim_spec (s : String) :
    ∃ pre post : List Char,
      s.data = pre ++ (trim s).data ++ post ∧
      (∀ c ∈ pre, isJsWhiteSpace c = true) ∧
      (∀ c ∈ post, isJsWhiteSpace c = true) ∧
      (∀ c, (trim s).data.head? = some c → isJsWhiteSpace c = false) ∧
      (∀ c, (trim s).data.getLast? = some c → isJsWhiteSpace c = false) := by
  refine ⟨s.data.takeWhile isJsWhiteSpace,
    (s.data.dropWhile isJsWhiteSpace).rtakeWhile isJsWhiteSpace, ?_, ?_, ?_, ?_, ?_⟩
  · have h1 : (s.data.dropWhile isJsWhiteSpace).rdropWhile isJsWhiteSpace
        ++ (s.data.dropWhile isJsWhiteSpace).rtakeWhile isJsWhiteSpace
        = s.data.dropWhile isJsWhiteSpace := by
      simp only [List.rdropWhile, List.rtakeWhile, ← List.reverse_append,
        List.takeWhile_append_dropWhile, List.reverse_reverse]
    rw [trim_data, List.append_assoc, h1, List.takeWhile_append_dropWhile]
  · intro c hc
    exact List.mem_takeWhile_imp hc
  · intro c hc
    exact List.mem_rtakeWhile_imp hc
  · intro c hc
    rw [trim_data] at hc
    obtain ⟨t, ht⟩ := List.rdropWhile_prefix isJsWhiteSpace
      (l := s.data.dropWhile isJsWhiteSpace)
    have hhead : (s.data.dropWhile isJsWhiteSpace).head? = some c := by
      rw [← ht, List.head?_append, hc]
      rfl
    have := List.head?_dropWhile_not isJsWhiteSpace s.data
    rw [hhead] at this
    exact this
  · intro c hc
    rw [trim_data] at hc
    have hne : (s.data.dropWhile isJsWhiteSpace).rdropWhile isJsWhiteSpace ≠ [] := by
      intro hnil
      rw [hnil] at hc
      simp at hc
    have hlast := List.rdropWhile_last_not isJsWhiteSpace _ hne
    rw [List.getLast?_eq_getLast _ hne] at hc
    injection hc with hc
    rw [hc] at hlast
    simpa using hlast

/-! ## `sendMessage` -/

/-- An accepted submission: the three setters and the request. -/
theorem sendMessage_accepted (s : ChatState) (htext : trim s.input ≠ "")
    (hidle : s.loading = false) :
    sendMessage s =
      ({ messages := s.messages ++ [{ role := "user", content := trim s.input }],
         input := "", loading := true },
       some { method := "POST", contentType := "application/json",
              messages := [SYSTEM_MESSAGE] ++ s.messages
                ++ [{ role := "user", content := trim s.input }] }) := by
  have hmap : s.messages.map (fun m => ({ role := m.role, content := m.content } : Message))
      = s.messages := by
    induction s.messages with
    | nil => rfl
    | cons m rest ih => simp [ih]
  simp [sendMessage, canSend, htext, hidle, hmap]

/-- A rejected submission changes nothing and issues no request. -/
theorem sendMessage_rejected (s : ChatState) (h : canSend s = false) :
    sendMessage s = (s, none) := by
  simp [sendMessage, h]

/-- A success response whose reply does not convert: the updater throws in the
render, nothing is committed. -/
theorem sendMessageSettle_throws (r : FetchOutcome) (s : ChatState)
    (hthrows : replyThrows r = true) :
    sendMessageSettle r s = Except.error JsError.typeError := by
  cases r with
  | rejected => simp [replyThrows] at hthrows
  | response status body =>
    cases body with
    | none => simp [replyThrows] at hthrows
    | some data =>
      simp only [replyThrows, Bool.and_eq_true, Option.isNone_iff_eq_none] at hthrows
      simp [sendMessageSettle, settleCalls, tryCatchFinally, tryBlock, finallyBlock, applyCalls,
        hthrows.1, hthrows.2]

/-- Every other outcome of the call: the settle appends one assistant message
and clears `loading`, and throws nothing. -/
theorem sendMessageSettle_ok (r : FetchOutcome) (s : ChatState)
    (hthrows : replyThrows r = false) :
    ∃ text, sendMessageSettle r s =
      Except.ok { s with messages := s.messages ++ [{ role := "assistant", content := text }],
                         loading := false } := by
  cases r with
  | rejected => exact ⟨CONTACT_FALLBACK, rfl⟩
  | response status body =>
    cases hok : resOk status with
    | false =>
      exact ⟨CONTACT_FALLBACK, by
        simp [sendMessageSettle, settleCalls, tryCatchFinally, tryBlock, catchBlock,
          finallyBlock, applyCalls, hok]⟩
    | true =>
      cases body with
      | none =>
        exact ⟨CONTACT_FALLBACK, by
          simp [sendMessageSettle, settleCalls, tryCatchFinally, tryBlock, catchBlock,
            finallyBlock, applyCalls, hok]⟩
      | some data =>
        cases htext : jsString (extractReply data) with
        | none => simp [replyThrows, hok, htext] at hthrows
        | some text => exact ⟨text, settle_success status data text s hok htext⟩

/-- The state last committed after a settle: one assistant message more and
`loading` false, or, when the updater throws, the state as it was. -/
theorem settle_eq (r : FetchOutcome) (s : ChatState) :
    (replyThrows r = false ∧ ∃ text, settle r s =
      { s with messages := s.messages ++ [{ role := "assistant", content := text }],
               loading := false }) ∨
    (replyThrows r = true ∧ settle r s = s) := by
  cases hthrows : replyThrows r with
  | false =>
    obtain ⟨text, h⟩ := sendMessageSettle_ok r s hthrows
    exact Or.inl ⟨rfl, text, by simp [settle, h]⟩
  | true =>
    exact Or.inr ⟨rfl, by simp [settle, sendMessageSettle_throws r s hthrows]⟩

/-- A failed transport call takes the `catch` clause. -/
theorem sendMessageSettle_failed (r : FetchOutcome) (s : ChatState)
    (hfail : transportFailed r = true) :
    sendMessageSettle r s =
      Except.ok { s with messages := s.messages ++
                           [{ role := "assistant", content := CONTACT_FALLBACK }],
                         loading := false } := by
  cases r with
  | rejected => rfl
  | response status body =>
    cases hok : resOk status with
    | false =>
      simp [sendMessageSettle, settleCalls, tryCatchFinally, tryBlock, catchBlock, finallyBlock,
        applyCalls, hok]
    | true =>
      cases body with
      | none =>
        simp [sendMessageSettle, settleCalls, tryCatchFinally, tryBlock, catchBlock,
          finallyBlock, applyCalls, hok]
      | some data => simp [transportFailed, hok] at hfail

/-! ## Events -/

/-- A render of a mounted component leaves its cells as they are. -/
theorem render_mounted (opened : Bool) (c : ChatState) : (render opened (some c)).1 = c := by
  cases opened <;> rfl

/-- The run of a sequence followed by one more event. -/
theorem run_concat (w : Widget) (events : List Event) (e : Event) :
    run w (events ++ [e]) = step (run w events) e := by
  simp [run, List.foldl_append]

/-- Nothing happens to an unmounted widget. -/
theorem step_unmounted (w : Widget) (e : Event) (h : w.unmounted = true) : step w e = w := by
  simp [step, h]

/-- While a call is outstanding, an event other than its end leaves the
transcript, the pending flag, the number of outstanding calls and the mount as
they are. -/
theorem step_while_pending (w : Widget) (e : Event) (he : e.isSettled = false)
    (hpending : w.cells.loading = true) :
    (step w e).cells.messages = w.cells.messages ∧ (step w e).cells.loading = true ∧
      (step w e).inflight = w.inflight ∧ (step w e).unmounted = w.unmounted := by
  cases hu : w.unmounted
  · have hreject : sendMessage w.cells = (w.cells, none) :=
      sendMessage_rejected _ (by simp [canSend, hpending])
    cases e with
    | setInput value => cases ho : w.opened <;> simp [step, hu, ho, hpending]
    | submit => cases ho : w.opened <;> simp [step, hu, ho, hpending, hreject]
    | settled r => simp [Event.isSettled] at he
    | setOpen opened => simp [step, hu, render_mounted, hpending]
  · rw [step_unmounted w e hu]
    exact ⟨rfl, hpending, rfl, hu⟩

/-- The same over a sequence of events. -/
theorem run_while_pending (events : List Event) (w : Widget)
    (hevents : ∀ e ∈ events, e.isSettled = false) (hpending : w.cells.loading = true) :
    (run w events).cells.messages = w.cells.messages ∧ (run w events).cells.loading = true ∧
      (run w events).inflight = w.inflight ∧ (run w events).unmounted = w.unmounted := by
  induction events generalizing w with
  | nil => exact ⟨rfl, hpending, rfl, rfl⟩
  | cons e rest ih =>
    obtain ⟨hm, hl, hi, hu⟩ :=
      step_while_pending w e (hevents e (List.mem_cons_self _ _)) hpending
    obtain ⟨hm2, hl2, hi2, hu2⟩ := ih (step w e)
      (fun e2 he2 => hevents e2 (List.mem_cons_of_mem _ he2)) hl
    exact ⟨by rw [← hm, ← hm2]; rfl, hl2, by rw [← hi, ← hi2]; rfl, by rw [← hu, ← hu2]; rfl⟩

/-- The end of a call on a mounted widget that has one outstanding: the cells
are those last committed, and the root is unmounted exactly when the updater
throws. -/
theorem step_settled (w : Widget) (r : FetchOutcome) (hu : w.unmounted = false)
    (h : w.inflight ≠ 0) :
    (step w (Event.settled r)).cells = settle r w.cells ∧
    (step w (Event.settled r)).inflight = w.inflight - 1 ∧
    (step w (Event.settled r)).unmounted = replyThrows r := by
  cases hthrows : replyThrows r with
  | false =>
    obtain ⟨text, hs⟩ := sendMessageSettle_ok r w.cells hthrows
    simp [step, hu, h, settle, hs]
  | true =>
    have hs := sendMessageSettle_throws r w.cells hthrows
    simp [step, hu, h, settle, hs]

/-- Every event leaves the old transcript at the front of the new one. -/
theorem step_messages_extend (w : Widget) (e : Event) :
    w.cells.messages <+: (step w e).cells.messages := by
  cases hu : w.unmounted
  · cases e with
    | setInput value => cases ho : w.opened <;> simp [step, hu, ho]
    | submit =>
      cases ho : w.opened
      · simp [step, hu, ho]
      · cases hc : canSend w.cells
        · simp [step, hu, ho, sendMessage_rejected _ hc]
        · simp [step, hu, ho, sendMessage, hc]
    | settled r =>
      by_cases hi : w.inflight = 0
      · simp [step, hu, hi]
      · rw [(step_settled w r hu hi).1]
        rcases settle_eq r w.cells with ⟨_, text, h⟩ | ⟨_, h⟩
        · rw [h]
          exact List.prefix_append _ _
        · rw [h]
    | setOpen opened => simp [step, hu, render_mounted]
  · rw [step_unmounted w e hu]

/-- The same over a sequence of events. -/
theorem run_messages_extend (events : List Event) (w : Widget) :
    w.cells.messages <+: (run w events).cells.messages := by
  induction events generalizing w with
  | nil => exact List.prefix_refl _
  | cons e rest ih => exact (step_messages_extend w e).trans (ih (step w e))

/-- A render with a new `open` prop leaves the cells and the outstanding calls as
they are. -/
theorem step_setOpen (w : Widget) (opened : Bool) :
    (step w (Event.setOpen opened)).cells = w.cells ∧
      (step w (Event.setOpen opened)).inflight = w.inflight := by
  cases hu : w.unmounted <;> simp [step, hu, render_mounted]

/-- An accepted submission on an open, mounted widget. -/
theorem step_submit_accepted (w : Widget) (hu : w.unmounted = false) (hopen : w.opened = true)
    (htext : trim w.cells.input ≠ "") (hidle : w.cells.loading = false) :
    (step w Event.submit).cells =
        { messages := w.cells.messages ++ [{ role := "user", content := trim w.cells.input }],
          input := "", loading := true } ∧
      (step w Event.submit).inflight = w.inflight + 1 ∧
      (step w Event.submit).unmounted = false := by
  simp [step, hu, hopen, sendMessage_accepted w.cells htext hidle]

/-- An accepted submission followed by the end of its call, with any events
other than the end of a call in between: when the updater of line 55 does not
throw, the transcript has grown by the user message and one assistant message;
when it throws, by the user message only, and the root is unmounted. -/
theorem submit_then_settle (w : Widget) (between : List Event) (r : FetchOutcome)
    (hu : w.unmounted = false) (hopen : w.opened = true)
    (htext : trim w.cells.input ≠ "") (hidle : w.cells.loading = false)
    (hbetween : ∀ e ∈ between, e.isSettled = false) :
    (replyThrows r = false →
      ∃ reply, (run w (Event.submit :: between ++ [Event.settled r])).cells.messages =
        w.cells.messages ++ [{ role := "user", content := trim w.cells.input },
                             { role := "assistant", content := reply }]) ∧
    (replyThrows r = true →
      (run w (Event.submit :: between ++ [Event.settled r])).cells.messages =
        w.cells.messages ++ [{ role := "user", content := trim w.cells.input }] ∧
      (run w (Event.submit :: between ++ [Event.settled r])).unmounted = true) := by
  have hstep : run w (Event.submit :: between ++ [Event.settled r]) =
      step (run (step w Event.submit) between) (Event.settled r) := by
    rw [← run_concat]
    rfl
  obtain ⟨hc1, hi1, hu1⟩ := step_submit_accepted w hu hopen htext hidle
  have hl1 : (step w Event.submit).cells.loading = true := by rw [hc1]
  obtain ⟨hm2, _, hi2, hu2⟩ := run_while_pending between (step w Event.submit) hbetween hl1
  have hne : (run (step w Event.submit) between).inflight ≠ 0 := by
    rw [hi2, hi1]
    exact Nat.succ_ne_zero _
  obtain ⟨hcells, _, hunm⟩ := step_settled (run (step w Event.submit) between) r
    (by rw [hu2, hu1]) hne
  rw [hstep]
  constructor
  · intro hthrows
    rcases settle_eq r (run (step w Event.submit) between).cells with ⟨_, reply, h⟩ | ⟨ht, _⟩
    · refine ⟨reply, ?_⟩
      rw [hcells, h]
      simp [hm2, hc1]
    · rw [hthrows] at ht
      exact absurd ht (by decide)
  · intro hthrows
    rcases settle_eq r (run (step w Event.submit) between).cells with ⟨hf, _⟩ | ⟨_, h⟩
    · rw [hthrows] at hf
      exact absurd hf (by decide)
    · refine ⟨?_, by rw [hunm, hthrows]⟩
      rw [hcells, h, hm2, hc1]

/-! ## The claims about submission and settle -/

/-- C3, the failing input: "hi" is typed into a freshly mounted open widget and
sent, and the call ends with status 200 and the body `{"content": {"toString": "x"}}`.
`String(reply)` throws inside the updater of line 55, which React runs outside
the `try`: the `catch` clause is not entered, no assistant message is
committed and the root is unmounted. The transcript has grown by 1, not 2. -/
theorem settle_throwing_reply_adds_one :
    replyThrows (FetchOutcome.response 200
      (some (Json.obj [("content", Json.obj [("toString", Json.str "x")])]))) = true ∧
    transportFailed (FetchOutcome.response 200
      (some (Json.obj [("content", Json.obj [("toString", Json.str "x")])]))) = false ∧
    sendMessageSettle (FetchOutcome.response 200
        (some (Json.obj [("content", Json.obj [("toString", Json.str "x")])])))
      { messages := [GREETING, ⟨"user", "hi"⟩], input := "", loading := true }
      = Except.error JsError.typeError ∧
    (run (mount true) [Event.setInput "hi"]).cells.messages.length = 1 ∧
    run (mount true)
      [Event.setInput "hi", Event.submit,
       Event.settled (FetchOutcome.response 200
         (some (Json.obj [("content", Json.obj [("toString", Json.str "x")])])))]
      = { cells := { messages := [GREETING, ⟨"user", "hi"⟩], input := "", loading := true },
          opened := true, inflight := 0, unmounted := true } := by
  refine ⟨by decide, by decide, by rfl, by decide, by decide⟩

/-- C4: in every state whose pending flag is true, and for every draft, `sendMessage`
is a no-op: transcript, draft and pending flag are unchanged and no transport
call is issued. -/
theorem sendMessage_noop_while_pending (s : ChatState) (hpending : s.loading = true) :
    sendMessage s = (s, none) :=
  sendMessage_rejected s (by simp [canSend, hpending])

/-- C4 on a pending state with a non-empty draft. -/
theorem sendMessage_noop_while_pending_witness :
    sendMessage { messages := [GREETING, ⟨"user", "hi"⟩], input := "again", loading := true }
      = ({ messages := [GREETING, ⟨"user", "hi"⟩], input := "again", loading := true }, none) :=
  sendMessage_noop_while_pending
    { messages := [GREETING, ⟨"user", "hi"⟩], input := "again", loading := true } rfl

/-- C5: for every draft that is empty or made of white space only, `sendMessage` is a
no-op: the transcript does not change, the pending flag is not set, and no
transport call is issued. -/
theorem sendMessage_noop_on_blank (s : ChatState)
    (hblank : ∀ c ∈ s.input.data, isJsWhiteSpace c = true) :
    sendMessage s = (s, none) :=
  sendMessage_rejected s (by simp [canSend, (trim_eq_empty_iff s.input).2 hblank])

/-- C5 on the draft made of a space, a tab, a newline and a no-break space. -/
theorem sendMessage_noop_on_blank_witness :
    sendMessage { messages := [GREETING], input := " \t\n\u00A0", loading := false }
      = ({ messages := [GREETING], input := " \t\n\u00A0", loading := false }, none) :=
  sendMessage_noop_on_blank { messages := [GREETING], input := " \t\n\u00A0", loading := false }
    (by decide)

/-- C6: for every submission whose transport call fails (network rejection,
non-success HTTP status, or a body that fails to decode as JSON), the settle
appends one message with role assistant and the fixed fallback content, which
names bhargaviarya11@gmail.com, the pending flag ends false, and the result is
not an error, on whatever state the widget is in when the call ends. -/
theorem failed_call_appends_fallback (s : ChatState) (r : FetchOutcome)
    (hfail : transportFailed r = true) :
    sendMessageSettle r s =
      Except.ok
        { messages := s.messages ++
            [⟨"assistant", "I couldn’t reach the chat service right now. " ++
                "Please email Bhargavi at bhargaviarya11@gmail.com."⟩],
          input := s.input, loading := false } ∧
    CONTACT_FALLBACK =
      "I couldn’t reach the chat service right now. Please email Bhargavi at "
        ++ "bhargaviarya11@gmail.com" ++ "." :=
  ⟨sendMessageSettle_failed r s hfail, by decide⟩

/-- C6 on an accepted submission answered by HTTP 500. -/
theorem failed_call_appends_fallback_witness :
    sendMessageSettle (FetchOutcome.response 500 (some (Json.obj [("content", Json.str "A")])))
        (sendMessage { messages := [GREETING], input := "hi", loading := false }).1
      = Except.ok { messages := [GREETING, ⟨"user", "hi"⟩, ⟨"assistant", CONTACT_FALLBACK⟩],
                    input := "", loading := false } :=
  (failed_call_appends_fallback
    (sendMessage { messages := [GREETING], input := "hi", loading := false }).1
    (FetchOutcome.response 500 (some (Json.obj [("content", Json.str "A")])))
    (by decide)).1

/-! ## Opening and closing -/

/-- C7 (as amended): a freshly mounted widget has the single seeded assistant
greeting as transcript, an empty draft and the pending flag false; the `open`
prop changing (in particular from false to true) leaves transcript, draft,
pending flag and outstanding calls exactly as they were, after every sequence
of events. -/
theorem reopen_keeps_cells :
    (∀ opened, (mount opened).cells =
      { messages := [{ role := "assistant",
                       content := "Hi! I’m Bhargavi’s assistant. How can I help?" }],
        input := "", loading := false }) ∧
    (∀ w opened, (step w (Event.setOpen opened)).cells = w.cells ∧
      (step w (Event.setOpen opened)).inflight = w.inflight) ∧
    (∀ w events, (run w (events ++ [Event.setOpen false, Event.setOpen true])).cells =
      (run w events).cells) := by
  refine ⟨?_, ?_, ?_⟩
  · intro opened
    cases opened <;> rfl
  · intro w opened
    exact step_setOpen w opened
  · intro w events
    have h : run w (events ++ [Event.setOpen false, Event.setOpen true]) =
        step (step (run w events) (Event.setOpen false)) (Event.setOpen true) := by
      simp [run, List.foldl_append]
    rw [h, (step_setOpen _ true).1, (step_setOpen _ false).1]

/-- C7 (as stated) fails after one exchange: the widget is mounted open, "hi" is
typed and sent, the reply "A" arrives, the widget is closed and opened again;
the transcript then holds three messages, not the greeting alone. -/
theorem reopen_does_not_reset :
    (run (mount true)
      [Event.setInput "hi", Event.submit,
       Event.settled (FetchOutcome.response 200 (some (Json.obj [("content", Json.str "A")]))),
       Event.setOpen false, Event.setOpen true]).cells
      = { messages := [GREETING, ⟨"user", "hi"⟩, ⟨"assistant", "A"⟩], input := "",
          loading := false } ∧
    [GREETING, ⟨"user", "hi"⟩, ⟨"assistant", "A"⟩] ≠ [GREETING] := by
  refine ⟨by decide, by decide⟩

/-! ## The request body -/

/-- C8: for every accepted submission with prior transcript T and trimmed text t,
the `messages` of the request body are the fixed system message, then the
messages of T in order, then the user message with content t; the length is
length(T) + 2, the new user message is the last entry, what precedes it is the
system message and T, and the body holds exactly one more copy of it than T. -/
theorem request_body_messages (s : ChatState)
    (htext : trim s.input ≠ "") (hidle : s.loading = false) :
    ∃ req, (sendMessage s).2 = some req ∧
      req.method = "POST" ∧ req.contentType = "application/json" ∧
      req.messages =
        [{ role := "system", content := "You are Bhargavi\x27s helpful assistant." }]
          ++ s.messages ++ [{ role := "user", content := trim s.input }] ∧
      req.messages.length = s.messages.length + 2 ∧
      req.messages.getLast? = some { role := "user", content := trim s.input } ∧
      req.messages.dropLast =
        { role := "system", content := "You are Bhargavi\x27s helpful assistant." } :: s.messages ∧
      req.messages.count { role := "user", content := trim s.input } =
        s.messages.count { role := "user", content := trim s.input } + 1 := by
  refine ⟨_, by rw [sendMessage_accepted s htext hidle], rfl, rfl, rfl, ?_, ?_, ?_, ?_⟩
  · simp [SYSTEM_MESSAGE]
  · rw [List.getLast?_append]
    rfl
  · rw [List.dropLast_concat]
    rfl
  · have hsys : (SYSTEM_MESSAGE == ({ role := "user", content := trim s.input } : Message))
        = false := by
      simp [SYSTEM_MESSAGE]
    simp [List.count_cons, hsys]

/-- C8 on the second submission of the same text "hi". -/
theorem request_body_messages_witness :
    ∃ req, (sendMessage { messages := [GREETING, ⟨"user", "hi"⟩, ⟨"assistant", "A"⟩],
                          input := "hi ", loading := false }).2 = some req ∧
      req.messages = [SYSTEM_MESSAGE, GREETING, ⟨"user", "hi"⟩, ⟨"assistant", "A"⟩,
                      ⟨"user", "hi"⟩] := by
  obtain ⟨req, h1, _, _, h4, _⟩ := request_body_messages
    { messages := [GREETING, ⟨"user", "hi"⟩, ⟨"assistant", "A"⟩], input := "hi ",
      loading := false } (by decide) rfl
  exact ⟨req, h1, by rw [h4]; decide⟩

/-! ## Append-only transcript -/

/-- C9: the transcript is append-only: for every event of the widget (draft update,
submission, settle of a call with any outcome, change of the `open` prop) the
transcript before it is an initial segment of the transcript after it, and so
it is over every sequence of events; from a mounted widget on, the seeded
assistant greeting stays the first message. A settle either appends one
assistant message or, when its updater throws, commits nothing. -/
theorem transcript_append_only :
    (∀ w e, w.cells.messages <+: (step w e).cells.messages) ∧
    (∀ w events, w.cells.messages <+: (run w events).cells.messages) ∧
    (∀ opened events, (run (mount opened) events).cells.messages.head? =
      some { role := "assistant", content := "Hi! I’m Bhargavi’s assistant. How can I help?" }) := by
  refine ⟨step_messages_extend, fun w events => run_messages_extend events w, ?_⟩
  intro opened events
  obtain ⟨t, ht⟩ := run_messages_extend events (mount opened)
  have hm : (mount opened).cells.messages = [GREETING] := by cases opened <;> rfl
  rw [← ht, hm]
  rfl

/-! ## The state after dispatch -/

/-- C10: for every accepted submission (trimmed draft non-empty, pending false) with
prior transcript T, the state right after dispatch is: transcript T followed by
one message with role user and content the trimmed draft, draft empty, pending
true; the trimmed draft is the draft without its leading and trailing runs of
white space. -/
theorem state_after_dispatch (s : ChatState)
    (htext : trim s.input ≠ "") (hidle : s.loading = false) :
    (sendMessage s).1 =
      { messages := s.messages ++ [{ role := "user", content := trim s.input }],
        input := "", loading := true } ∧
    ∃ pre post : List Char,
      s.input.data = pre ++ (trim s.input).data ++ post ∧
      (∀ c ∈ pre, isJsWhiteSpace c = true) ∧
      (∀ c ∈ post, isJsWhiteSpace c = true) ∧
      (∀ c, (trim s.input).data.head? = some c → isJsWhiteSpace c = false) ∧
      (∀ c, (trim s.input).data.getLast? = some c → isJsWhiteSpace c = false) :=
  ⟨by rw [sendMessage_accepted s htext hidle], trim_spec s.input⟩

/-- C10 on the draft "  hello world \n" typed into a fresh widget. -/
theorem state_after_dispatch_witness :
    (sendMessage { messages := [GREETING], input := "  hello world \n", loading := false }).1
      = { messages := [GREETING, ⟨"user", "hello world"⟩], input := "", loading := true } := by
  have h := (state_after_dispatch
    { messages := [GREETING], input := "  hello world \n", loading := false }
    (by decide) rfl).1
  rw [h]
  decide

/-! ## The keyboard contract -/

/-- The handler on Enter without shift, and on every other event. -/
theorem handleKeyDown_eq (e : KeyEvent) :
    (e.key = "Enter" ∧ e.shiftKey = false →
      handleKeyDown e = [Call.preventDefault, Call.sendMessage]) ∧
    (¬ (e.key = "Enter" ∧ e.shiftKey = false) → handleKeyDown e = []) := by
  constructor
  · rintro ⟨hk, hs⟩
    simp [handleKeyDown, hk, hs]
  · intro h
    by_cases hk : e.key = "Enter"
    · have hs : e.shiftKey = true := by
        cases hshift : e.shiftKey
        · exact absurd ⟨hk, hshift⟩ h
        · rfl
      simp [handleKeyDown, hs]
    · simp [handleKeyDown, hk]

/-- C11: for every key event, `handleKeyDown` suppresses the default action and
invokes `sendMessage` exactly once if and only if the key is Enter and shift is
not held, and then no line break reaches the draft; for every other event it
makes no call at all, and for Enter with shift held the default action inserts
the line break into the draft, with no submission. -/
theorem handleKeyDown_submits_iff (e : KeyEvent) :
    ((Call.preventDefault ∈ handleKeyDown e ∧ (handleKeyDown e).count Call.sendMessage = 1) ↔
      (e.key = "Enter" ∧ e.shiftKey = false)) ∧
    (Call.preventDefault ∈ handleKeyDown e ↔ (e.key = "Enter" ∧ e.shiftKey = false)) ∧
    ((handleKeyDown e).count Call.sendMessage = 1 ↔ (e.key = "Enter" ∧ e.shiftKey = false)) ∧
    (¬ (e.key = "Enter" ∧ e.shiftKey = false) → handleKeyDown e = []) ∧
    (e.key = "Enter" → e.shiftKey = false → ∀ s selStart selEnd,
      keyDown e selStart selEnd s = ((sendMessage s).1, (sendMessage s).2.toList)) ∧
    (e.key = "Enter" → e.shiftKey = true → ∀ s selStart selEnd,
      keyDown e selStart selEnd s =
        ({ s with input := insertLineBreak s.input selStart selEnd }, []) ∧
      Char.ofNat 0x0A ∈ (insertLineBreak s.input selStart selEnd).data) := by
  obtain ⟨hyes, hno⟩ := handleKeyDown_eq e
  by_cases h : e.key = "Enter" ∧ e.shiftKey = false
  · have hcalls := hyes h
    refine ⟨?_, ?_, ?_, ?_, ?_, ?_⟩
    · simp [hcalls, h]
    · simp [hcalls, h]
    · simp [hcalls, h]
    · intro hn
      exact absurd h hn
    · intro _ _ s selStart selEnd
      simp [keyDown, hcalls, runCalls]
    · intro _ hs
      rw [h.2] at hs
      exact absurd hs (by decide)
  · have hcalls := hno h
    refine ⟨?_, ?_, ?_, ?_, ?_, ?_⟩
    · simp [hcalls, h]
    · simp [hcalls, h]
    · simp [hcalls, h]
    · intro _
      exact hcalls
    · intro hk hs
      exact absurd ⟨hk, hs⟩ h
    · intro hk _ s selStart selEnd
      constructor
      · simp [keyDown, hcalls, runCalls, hk]
      · simp [insertLineBreak]

/-- C11 on Enter with shift held, the caret at the end of the draft "hi": the draft
becomes "hi" followed by a line feed and nothing is sent. -/
theorem handleKeyDown_submits_iff_witness :
    keyDown { key := "Enter", shiftKey := true } 2 2
        { messages := [GREETING], input := "hi", loading := false }
      = ({ messages := [GREETING], input := "hi\n", loading := false }, []) := by
  have h := ((handleKeyDown_submits_iff { key := "Enter", shiftKey := true }).2.2.2.2.2 rfl rfl
    { messages := [GREETING], input := "hi", loading := false } 2 2).1
  rw [h]
  decide

/-! ## Roles alternate and `loading` tracks the outstanding call -/

/-- A freshly mounted widget is consistent. -/
theorem consistent_mount (opened : Bool) : Consistent (mount opened) := by
  cases opened <;> exact ⟨rfl, rfl, Or.inr ⟨rfl, rfl, fun _ => rfl⟩⟩

/-- Appending the message expected at the next position keeps the roles
alternating and the greeting first. -/
theorem roles_append (ms : List Message) (m : Message)
    (hhead : ms.head? = some GREETING)
    (hroles : ms.map Message.role = (List.range ms.length).map expectedRole)
    (hm : m.role = expectedRole ms.length) :
    (ms ++ [m]).head? = some GREETING ∧
    (ms ++ [m]).map Message.role = (List.range (ms ++ [m]).length).map expectedRole := by
  constructor
  · rw [List.head?_append, hhead]
    rfl
  · rw [List.length_append, List.length_singleton, List.range_succ, List.map_append,
      List.map_append, hroles]
    simp [hm]

/-- Every event keeps the widget consistent. -/
theorem consistent_step (w : Widget) (e : Event) (h : Consistent w) : Consistent (step w e) := by
  cases hu : w.unmounted
  case true =>
    rw [step_unmounted w e hu]
    exact h
  case false =>
  obtain ⟨hhead, hroles, hstate⟩ := h
  cases e with
  | setInput value =>
    cases ho : w.opened
    · have hsame : step w (Event.setInput value) = w := by simp [step, hu, ho]
      rw [hsame]
      exact ⟨hhead, hroles, hstate⟩
    · have hc : (step w (Event.setInput value)) =
          { w with cells := { w.cells with input := value } } := by simp [step, hu, ho]
      rw [hc]
      exact ⟨hhead, hroles, hstate⟩
  | setOpen opened =>
    have hc : step w (Event.setOpen opened) = { w with opened := opened } := by
      simp [step, hu, render_mounted]
    rw [hc]
    exact ⟨hhead, hroles, hstate⟩
  | submit =>
    cases ho : w.opened
    · have hsame : step w Event.submit = w := by simp [step, hu, ho]
      rw [hsame]
      exact ⟨hhead, hroles, hstate⟩
    · cases hc : canSend w.cells
      · have hsame : step w Event.submit = w := by
          cases w
          simp_all [step, sendMessage_rejected _ hc]
        rw [hsame]
        exact ⟨hhead, hroles, hstate⟩
      · have htext : trim w.cells.input ≠ "" := by
          intro ht
          simp [canSend, ht] at hc
        have hidle : w.cells.loading = false := by
          cases hl : w.cells.loading
          · rfl
          · simp [canSend, hl] at hc
        obtain ⟨hcells, hinflight, _⟩ := step_submit_accepted w hu ho htext hidle
        rcases hstate with ⟨hl, _, _⟩ | ⟨_, hodd, hzero⟩
        · rw [hidle] at hl
          exact absurd hl (by decide)
        · have hrole : ({ role := "user", content := trim w.cells.input } : Message).role
              = expectedRole w.cells.messages.length := by
            simp [expectedRole, hodd]
          obtain ⟨h1, h2⟩ := roles_append w.cells.messages _ hhead hroles hrole
          refine ⟨by rw [hcells]; exact h1, by rw [hcells]; exact h2, Or.inl ⟨?_, ?_, ?_⟩⟩
          · rw [hcells]
          · rw [hcells]
            simp only [List.length_append, List.length_singleton]
            omega
          · intro _
            rw [hinflight, hzero hu]
  | settled r =>
    by_cases hi : w.inflight = 0
    · have hsame : step w (Event.settled r) = w := by simp [step, hu, hi]
      rw [hsame]
      exact ⟨hhead, hroles, hstate⟩
    · obtain ⟨hcells, hinflight, hunm⟩ := step_settled w r hu hi
      rcases hstate with ⟨hl, heven, hone⟩ | ⟨_, _, hzero⟩
      · rcases settle_eq r w.cells with ⟨hthrows, text, hsettle⟩ | ⟨hthrows, hsettle⟩
        · rw [hsettle] at hcells
          have hrole : ({ role := "assistant", content := text } : Message).role
              = expectedRole w.cells.messages.length := by
            simp [expectedRole, heven]
          obtain ⟨h1, h2⟩ := roles_append w.cells.messages _ hhead hroles hrole
          refine ⟨by rw [hcells]; exact h1, by rw [hcells]; exact h2, Or.inr ⟨?_, ?_, ?_⟩⟩
          · rw [hcells]
          · rw [hcells]
            simp only [List.length_append, List.length_singleton]
            omega
          · intro _
            rw [hinflight, hone hu]
        · rw [hsettle] at hcells
          refine ⟨by rw [hcells]; exact hhead, by rw [hcells]; exact hroles,
            Or.inl ⟨by rw [hcells]; exact hl, by rw [hcells]; exact heven, ?_⟩⟩
          intro hmounted
          rw [hunm, hthrows] at hmounted
          exact absurd hmounted (by decide)
      · exact absurd (hzero hu) hi

/-- Every sequence of events keeps the widget consistent. -/
theorem consistent_run (events : List Event) (w : Widget) (h : Consistent w) :
    Consistent (run w events) := by
  induction events generalizing w with
  | nil => exact h
  | cons e rest ih => exact ih (step w e) (consistent_step w e h)

/-- In every state reached from a freshly mounted widget, the roles of the
transcript alternate assistant, user, assistant, ... starting with the
greeting, no message has role system, and `loading` is true exactly when the
last message has role user; as long as the root is mounted, that is exactly
when a call is outstanding, of which there is at most one. -/
theorem reachable_consistent (opened : Bool) (events : List Event) :
    (run (mount opened) events).cells.messages.head? =
      some { role := "assistant", content := "Hi! I’m Bhargavi’s assistant. How can I help?" } ∧
    (run (mount opened) events).cells.messages.map Message.role =
      (List.range (run (mount opened) events).cells.messages.length).map expectedRole ∧
    (∀ m ∈ (run (mount opened) events).cells.messages, m.role ≠ "system") ∧
    ((run (mount opened) events).cells.loading = true ↔
      (run (mount opened) events).cells.messages.getLast?.map Message.role = some "user") ∧
    ((run (mount opened) events).unmounted = false →
      ((run (mount opened) events).cells.loading = true ↔
        (run (mount opened) events).inflight = 1) ∧
      (run (mount opened) events).inflight ≤ 1) := by
  obtain ⟨hhead, hroles, hstate⟩ := consistent_run events (mount opened) (consistent_mount opened)
  generalize run (mount opened) events = w at hhead hroles hstate
  have hpos : w.cells.messages.length ≠ 0 := by
    intro hz
    have hnil : w.cells.messages = [] := List.length_eq_zero.mp hz
    rw [hnil] at hhead
    simp at hhead
  have hlast : w.cells.messages.getLast?.map Message.role =
      some (expectedRole (w.cells.messages.length - 1)) := by
    rw [← List.getLast?_map, hroles]
    cases hn : w.cells.messages.length with
    | zero => exact absurd hn hpos
    | succ k =>
      rw [List.range_succ, List.map_append, List.getLast?_append]
      rfl
  refine ⟨hhead, hroles, ?_, ?_, ?_⟩
  · intro m hm hsys
    have hmem : m.role ∈ w.cells.messages.map Message.role := List.mem_map_of_mem _ hm
    rw [hroles, List.mem_map] at hmem
    obtain ⟨i, _, hi⟩ := hmem
    rw [hsys] at hi
    unfold expectedRole at hi
    split at hi <;> exact absurd hi (by decide)
  · rw [hlast]
    rcases hstate with ⟨hl, heven, _⟩ | ⟨hl, hodd, _⟩
    · have hpar : (w.cells.messages.length - 1) % 2 = 1 := by omega
      simp [hl, expectedRole, hpar]
    · have hpar : (w.cells.messages.length - 1) % 2 = 0 := by omega
      simp [hl, expectedRole, hpar]
  · intro hmounted
    rcases hstate with ⟨hl, _, hone⟩ | ⟨hl, _, hzero⟩
    · simp [hl, hone hmounted]
    · simp [hl, hzero hmounted]

/-- C12, the failing input: "hi" is typed into a freshly mounted open widget and
sent, and the call ends with status 200 and the body
`{"content": {"toString": "x"}, "reply": "R"}`. The updater of line 55 throws
in the render, so neither the assistant message nor `setLoading(false)` is
committed: the state last committed has `loading` true and a user message
last, while no call is outstanding, and the root is unmounted. -/
theorem pending_without_outstanding_call :
    (run (mount true)
      [Event.setInput "hi", Event.submit,
       Event.settled (FetchOutcome.response 200
         (some (Json.obj [("content", Json.obj [("toString", Json.str "x")]),
                          ("reply", Json.str "R")])))]).cells.loading = true ∧
    (run (mount true)
      [Event.setInput "hi", Event.submit,
       Event.settled (FetchOutcome.response 200
         (some (Json.obj [("content", Json.obj [("toString", Json.str "x")]),
                          ("reply", Json.str "R")])))]).cells.messages
      = [GREETING, ⟨"user", "hi"⟩] ∧
    (run (mount true)
      [Event.setInput "hi", Event.submit,
       Event.settled (FetchOutcome.response 200
         (some (Json.obj [("content", Json.obj [("toString", Json.str "x")]),
                          ("reply", Json.str "R")])))]).inflight = 0 ∧
    (run (mount true)
      [Event.setInput "hi", Event.submit,
       Event.settled (FetchOutcome.response 200
         (some (Json.obj [("content", Json.obj [("toString", Json.str "x")]),
                          ("reply", Json.str "R")])))]).unmounted = true := by
  refine ⟨by decide, by decide, by decide, by decide⟩

end ChatWidget
